import Mathlib

/-!
Verification of the fox-report core: night-window resolution
(`src/fox_report/time_resolver.py`), resilient event retrieval
(`database_query_enhanced.py`, `src/fox_report/database_query.py`) and
report aggregation (`src/fox_report/report_generator.py`).

Modelling conventions:
* Instants are minutes since the epoch 1970-01-01T00:00 (`Int`); a calendar
  date is its day number (`Int`, days since 1970-01-01), so the instant at
  day `d`, time-of-day `t` minutes is `d * 1440 + t`.  `timezone.localize`
  is an order-preserving bijection on instants and is elided.
* The astral library is external; it is modelled as an oracle
  `sun : Int → Option (Int × Int)` giving the raw `(dusk, dawn)` pair for a
  day number, `none` meaning the computation raised.
* Python exceptions are `Except Unit` results; log statements are elided.
-/

namespace FoxReport

/-- Static-times section of the YAML config (`static_times:` mapping).
`start_time` / `end_time` are the parsed "HH:MM" values in minutes after
midnight; `none` stands for a missing or empty entry. -/
structure StaticTimesConfig where
  enabled : Bool
  startTime : Option Int
  endTime : Option Int
deriving DecidableEq

/-- The slice of the resolver's configuration that `TimeResolver` reads.
`staticTimes = none` models both an absent `static_times` key and an empty
mapping (both are falsy in `if static_config:`).  `hasLocation` is true when
`location.latitude` and `location.longitude` are both configured.
`bufferMinutes` is `advanced.buffer_minutes` (the loader defaults it to 15). -/
structure Config where
  staticTimes : Option StaticTimesConfig
  hasLocation : Bool
  bufferMinutes : Int
deriving DecidableEq

/-- Embedding of `TimeResolver._calculate_static_times` (time_resolver.py
lines 147-189): requires an enabled static config with both times present;
start is `start_time` on the target date, and the end rolls to the next
calendar day when `end_time < start_time`. -/
def calculateStaticTimes (cfg : Config) (targetDate : Int) :
    Except Unit (Int × Int) :=
  match cfg.staticTimes with
  | none => .error ()
  | some sc =>
    if sc.enabled = false then .error ()
    else
      match sc.startTime, sc.endTime with
      | some st, some et =>
        let dusk := targetDate * 1440 + st
        let dawn :=
          if et < st then (targetDate + 1) * 1440 + et
          else targetDate * 1440 + et
        .ok (dusk, dawn)
      | _, _ => .error ()

/-- Embedding of `TimeResolver._calculate_astral_times` (time_resolver.py
lines 80-145): fails without configured coordinates, otherwise asks the
astral oracle for the raw dusk/dawn pair of the target date and applies the
buffer, dusk − buffer and dawn + buffer.  The `twilight_type` selection is
elided because every branch of the Python picks the same pair
`(s.dusk, s.dawn)`. -/
def calculateAstralTimes (sun : Int → Option (Int × Int)) (cfg : Config)
    (targetDate : Int) : Except Unit (Int × Int) :=
  if cfg.hasLocation = false then .error ()
  else
    match sun targetDate with
    | none => .error ()
    | some (dusk, dawn) =>
      .ok (dusk - cfg.bufferMinutes, dawn + cfg.bufferMinutes)

/-- Configuration after the fallback in `get_night_range` line 234 sets
`static_config['enabled'] = True` (a mutation of the shared config dict). -/
def enableStatic (cfg : Config) : Config :=
  match cfg.staticTimes with
  | none => cfg
  | some sc =>
    { staticTimes := some { sc with enabled := true },
      hasLocation := cfg.hasLocation,
      bufferMinutes := cfg.bufferMinutes }

/-- Embedding of `TimeResolver.get_night_range` (time_resolver.py lines
191-237).  Returns the result together with the post-call configuration,
because the astral-failure fallback mutates `self.config` in place. -/
def getNightRange (sun : Int → Option (Int × Int)) (cfg : Config)
    (currentDate : Int) (lookbackNights : Int) :
    Except Unit (Int × Int) × Config :=
  let targetDate := currentDate - lookbackNights
  match cfg.staticTimes with
  | some sc =>
    if sc.enabled then (calculateStaticTimes cfg targetDate, cfg)
    else
      match calculateAstralTimes sun cfg targetDate with
      | .ok r => (.ok r, cfg)
      | .error _ =>
        let cfg' := enableStatic cfg
        (calculateStaticTimes cfg' targetDate, cfg')
  | none =>
    match calculateAstralTimes sun cfg targetDate with
    | .ok r => (.ok r, cfg)
    | .error _ => (.error (), cfg)

/-- Embedding of the loop body of `TimeResolver.get_multiple_night_ranges`
(time_resolver.py lines 257-265) over an explicit list of lookback indices,
threading the mutable configuration; a failing lookback is logged and
skipped, the rest of the loop still runs. -/
def getMultipleAux (sun : Int → Option (Int × Int)) (currentDate : Int) :
    Config → List Nat → List (Int × Int) × Config
  | cfg, [] => ([], cfg)
  | cfg, lb :: rest =>
    match getNightRange sun cfg currentDate (lb : Int) with
    | (Except.ok r, cfg2) =>
      let tail := getMultipleAux sun currentDate cfg2 rest
      (r :: tail.1, tail.2)
    | (Except.error _, cfg2) => getMultipleAux sun currentDate cfg2 rest

/-- Embedding of `TimeResolver.get_multiple_night_ranges` (time_resolver.py
lines 239-265): iterates lookback = 0, 1, ..., nightsCount − 1. -/
def getMultipleNightRanges (sun : Int → Option (Int × Int)) (cfg : Config)
    (currentDate : Int) (nightsCount : Nat) : List (Int × Int) :=
  (getMultipleAux sun currentDate cfg (List.range nightsCount)).1

/-- Validity of the parsed static times: `strptime("%H:%M")` can only
produce a time-of-day in [0, 1440). -/
def staticTimesParsed (cfg : Config) : Bool :=
  match cfg.staticTimes with
  | none => true
  | some sc =>
    (match sc.startTime with
     | none => true
     | some st => decide (0 ≤ st) && decide (st < 1440)) &&
    (match sc.endTime with
     | none => true
     | some et => decide (0 ≤ et) && decide (et < 1440))

/-- Outcome of one raw connection attempt against the SQLite store,
classified exactly as the `except` clauses of
`_attempt_database_connection` (database_query_enhanced.py lines 110-137)
classify exceptions: a lock-class `sqlite3.OperationalError` ("database is
locked" / "disk i/o error"), any other `sqlite3.OperationalError`
(permission, unable to open, ...), or any other exception (the generic
`except Exception` branch, e.g. `sqlite3.DatabaseError` for a corrupt
file). -/
inductive ConnectOutcome where
  | success
  | locked
  | opErrorOther
  | unexpected
deriving DecidableEq

/-- Result of the whole connect operation: a live connection, a
`DatabaseLockError`, or a `DatabaseError`. -/
inductive ConnectResult where
  | connected
  | lockError
  | dbError
deriving DecidableEq

/-- Embedding of the retry loop of `_attempt_database_connection`
(database_query_enhanced.py lines 87-141).  `remaining` is the number of
loop iterations left (`max_retries - attempt`), `attempt` the 0-indexed
attempt counter used for the exponential backoff.  Returns the result, the
number of attempts actually made, and the list of sleep durations in
seconds, in order.  The `remaining = 0` base case is the fall-through after
the `for` loop (line 140), reachable only when `max_retries = 0`. -/
def connectLoop (backend : Nat → ConnectOutcome) :
    Nat → Nat → ConnectResult × Nat × List Nat
  | 0, _ => (.dbError, 0, [])
  | r + 1, attempt =>
    match backend attempt with
    | .success => (.connected, 1, [])
    | .locked =>
      if r = 0 then (.lockError, 1, [])
      else
        let rest := connectLoop backend r (attempt + 1)
        (rest.1, rest.2.1 + 1, 2 ^ attempt :: rest.2.2)
    | .opErrorOther => (.dbError, 1, [])
    | .unexpected =>
      if r = 0 then (.dbError, 1, [])
      else
        let rest := connectLoop backend r (attempt + 1)
        (rest.1, rest.2.1 + 1, 1 :: rest.2.2)

/-- Embedding of `_attempt_database_connection(db_path, max_retries)`: run
the attempt loop from attempt 0.  The backend oracle abstracts the store:
`backend n` is what the n-th `sqlite3.connect` + validation round-trip
does. -/
def attemptDatabaseConnection (backend : Nat → ConnectOutcome)
    (maxRetries : Nat) : ConnectResult × Nat × List Nat :=
  connectLoop backend maxRetries 0

/-- Row of the Frigate `event` table as the queries project it.  Timestamps
are epoch seconds (`Int` here; SQLite stores reals, but the claims only do
order/difference arithmetic).  `score` is `json_extract(data, $.score)`;
the opaque pass-through columns (zones, sub_label, area, box) are elided. -/
structure RawEventRow where
  id : String
  score : Option Rat
  camera : String
  startTime : Option Int
  endTime : Option Int
  hasClip : Bool
deriving DecidableEq

/-- Event dictionary built by `fox_report/database_query.get_fox_events`
(lines 103-121) from one row; only the fields the claims mention are kept.
`duration_seconds` embeds the SQL CASE of lines 60-64:
`end_time - start_time` when both are non-NULL, else 0.0. -/
structure FoxEvent where
  eventId : String
  confidence : Rat
  camera : String
  durationSeconds : Rat
  clip : Bool
  nightIndex : Int
deriving DecidableEq

/-- The SQL CASE expression computing `duration_seconds` in the query of
`fox_report/database_query.py` lines 60-64. -/
def sqlDurationSeconds (r : RawEventRow) : Rat :=
  match r.startTime, r.endTime with
  | some s, some e => ((e - s : Int) : Rat)
  | _, _ => 0

/-- Python `nights[i] if i < len(nights) else i` used for `night_index`. -/
def nightIndexAt (nights : List Int) (i : Nat) : Int :=
  nights.getD i (i : Int)

/-- Construction of one event dict from a row
(`fox_report/database_query.py` lines 103-121): `float(row[k]) if row[k]
is not None else 0.0` for confidence, the SQL CASE for the duration. -/
def buildEvent (nightIdx : Int) (r : RawEventRow) : FoxEvent :=
  { eventId := r.id,
    confidence := r.score.getD 0,
    camera := r.camera,
    durationSeconds := sqlDurationSeconds r,
    clip := r.hasClip,
    nightIndex := nightIdx }

/-- Per-window loop of `fox_report/database_query.get_fox_events` (lines
85-121).  The backend oracle is the parameterized SQL range query for one
window.  This legacy variant has no per-window `try`: a `sqlite3.Error` on
any window propagates out of the loop and is re-raised (lines 125-127),
aborting the whole call. -/
def getFoxEventsAux (backend : Int × Int → Except Unit (List RawEventRow))
    (nights : List Int) : Nat → List (Int × Int) →
    Except Unit (List FoxEvent)
  | _, [] => .ok []
  | i, w :: rest =>
    match backend w with
    | .error e => .error e
    | .ok rows =>
      match getFoxEventsAux backend nights (i + 1) rest with
      | .error e => .error e
      | .ok tail => .ok (rows.map (buildEvent (nightIndexAt nights i)) ++ tail)

/-- Embedding of `fox_report/database_query.get_fox_events` (lines 17-137),
with the connection itself abstracted into the query backend. -/
def getFoxEvents (backend : Int × Int → Except Unit (List RawEventRow))
    (nights : List Int) (ranges : List (Int × Int)) :
    Except Unit (List FoxEvent) :=
  getFoxEventsAux backend nights 0 ranges

/-- Event dictionary built by the enhanced fetcher
(`database_query_enhanced.get_fox_events` lines 265-279).  Its SQL computes
the duration in minutes, `(end_time - start_time) / 60.0`; `camera` falls
back to "unknown" for a falsy value. -/
structure EnhancedEvent where
  eventId : String
  confidence : Rat
  camera : String
  durationMinutes : Rat
  clip : Bool
  nightIndex : Int
deriving DecidableEq

/-- The SQL CASE of database_query_enhanced.py lines 226-230. -/
def sqlDurationMinutes (r : RawEventRow) : Rat :=
  match r.startTime, r.endTime with
  | some s, some e => ((e - s : Int) : Rat) / 60
  | _, _ => 0

/-- Row-to-event mapping of `database_query_enhanced.get_fox_events`
(lines 265-279). -/
def buildEnhancedEvent (nightIdx : Int) (r : RawEventRow) : EnhancedEvent :=
  { eventId := r.id,
    confidence := r.score.getD 0,
    camera := if r.camera = "" then "unknown" else r.camera,
    durationMinutes := sqlDurationMinutes r,
    clip := r.hasClip,
    nightIndex := nightIdx }

/-- Per-window loop of `database_query_enhanced.get_fox_events` (lines
249-288): each window's query runs inside its own `try`; a `sqlite3.Error`
is logged and the loop `continue`s with the remaining windows. -/
def getFoxEventsEnhancedAux
    (backend : Int × Int → Except Unit (List RawEventRow))
    (nights : List Int) : Nat → List (Int × Int) → List EnhancedEvent
  | _, [] => []
  | i, w :: rest =>
    let tail := getFoxEventsEnhancedAux backend nights (i + 1) rest
    match backend w with
    | .error _ => tail
    | .ok rows => rows.map (buildEnhancedEvent (nightIndexAt nights i)) ++ tail

/-- Embedding of `database_query_enhanced.get_fox_events` (lines 144-298):
empty `nights` or empty `ranges` short-circuit to `[]`, a length mismatch
raises `ValueError`, then the per-window loop runs.  The connection
acquisition, schema probe and media-file validation touch the external
store/filesystem and are abstracted into the query backend. -/
def getFoxEventsEnhanced
    (backend : Int × Int → Except Unit (List RawEventRow))
    (nights : List Int) (ranges : List (Int × Int)) :
    Except Unit (List EnhancedEvent) :=
  if nights = [] then .ok []
  else if ranges = [] then .ok []
  else if nights.length ≠ ranges.length then .error ()
  else .ok (getFoxEventsEnhancedAux backend nights 0 ranges)

/-- Insertion step of the camera grouping of `generate_fox_report`
(report_generator.py lines 163-179): a new camera key is appended at the
end (dict insertion order), an existing key accumulates. -/
def addToGroups (groups : List (String × List FoxEvent)) (e : FoxEvent) :
    List (String × List FoxEvent) :=
  match groups with
  | [] => [(e.camera, [e])]
  | (c, es) :: rest =>
    if c = e.camera then (c, es ++ [e]) :: rest
    else (c, es) :: addToGroups rest e

/-- The `events_by_camera` mapping of `generate_fox_report`, in first-seen
camera order. -/
def groupByCamera (events : List FoxEvent) : List (String × List FoxEvent) :=
  events.foldl addToGroups []

/-- The `totals` block of the report (report_generator.py lines 150-186). -/
structure ReportTotals where
  totalEvents : Nat
  camerasWithDetections : Nat
  averageConfidence : Rat
  totalDurationSeconds : Rat
deriving DecidableEq

/-- Totals computation of `generate_fox_report` (lines 150-186):
`total_events = len(events)`, `cameras_with_detections =
len(events_by_camera)`, `average_confidence = total_confidence /
len(events) if events else 0.0`, `total_duration_seconds` the running
sum. -/
def aggregateTotals (events : List FoxEvent) : ReportTotals :=
  { totalEvents := events.length,
    camerasWithDetections := (groupByCamera events).length,
    averageConfidence :=
      if events = [] then 0
      else (events.map (fun e => e.confidence)).sum / (events.length : Rat),
    totalDurationSeconds := (events.map (fun e => e.durationSeconds)).sum }

/-- Per-camera stats block of `generate_fox_report` (lines 189-197). -/
structure CameraStats where
  eventCount : Nat
  averageConfidence : Rat
  totalDurationSeconds : Rat
deriving DecidableEq

/-- Stats attached to one camera group (lines 189-197); the group is
nonempty by construction so the division is by a positive count. -/
def cameraStats (es : List FoxEvent) : CameraStats :=
  { eventCount := es.length,
    averageConfidence := (es.map (fun e => e.confidence)).sum / (es.length : Rat),
    totalDurationSeconds := (es.map (fun e => e.durationSeconds)).sum }

/-- Physical property of the astral oracle used for monotonicity claims:
the buffered dusk of day `t` lies inside day `t`.  The real astral library
returns the evening dusk of the requested date, so with the default
15-minute buffer this holds at non-polar latitudes. -/
def sunDuskInDay (sun : Int → Option (Int × Int)) (buffer : Int) : Prop :=
  ∀ t du da, sun t = some (du, da) →
    t * 1440 ≤ du - buffer ∧ du - buffer < (t + 1) * 1440

/-- Astral oracle that always raises (e.g. polar edge case). -/
def sunNone : Int → Option (Int × Int) := fun _ => none

/-- Astral oracle placing dusk at 21:00 of the requested day and dawn at
05:00 of the next day. -/
def sunDay : Int → Option (Int × Int) := fun t =>
  some (t * 1440 + 1260, (t + 1) * 1440 + 300)

/-- Static config with identical start and end times ("20:00"/"20:00"). -/
def cfgStaticEqual : Config :=
  { staticTimes := some { enabled := true, startTime := some 1200, endTime := some 1200 },
    hasLocation := false,
    bufferMinutes := 15 }

/-- Static config "20:00"/"06:00" (1200 and 360 minutes after midnight). -/
def cfgStatic2006 : Config :=
  { staticTimes := some { enabled := true, startTime := some 1200, endTime := some 360 },
    hasLocation := false,
    bufferMinutes := 15 }

/-- Coordinates configured, no static_times section, default buffer. -/
def cfgAstral : Config :=
  { staticTimes := none, hasLocation := true, bufferMinutes := 15 }

/-- Coordinates configured plus a disabled static_times section — the
configuration in which the astral-failure fallback fires. -/
def cfgFallback : Config :=
  { staticTimes := some { enabled := false, startTime := some 1200, endTime := some 360 },
    hasLocation := true,
    bufferMinutes := 15 }

/-- Store backend whose every connection attempt hits a lock. -/
def backendLocked : Nat → ConnectOutcome := fun _ => ConnectOutcome.locked

/-- Store backend whose every attempt raises outside
`sqlite3.OperationalError` (e.g. a corrupt database file). -/
def backendUnexpected : Nat → ConnectOutcome := fun _ => ConnectOutcome.unexpected

/-- Store backend whose first attempt raises a non-lock
`sqlite3.OperationalError` (e.g. permission denied). -/
def backendOpOther : Nat → ConnectOutcome := fun _ => ConnectOutcome.opErrorOther

/-- Raw row whose end timestamp precedes its start timestamp. -/
def rowNeg : RawEventRow :=
  { id := "e1", score := some (9 / 10), camera := "front",
    startTime := some 100, endTime := some 50, hasClip := true }

/-- Query backend returning the single malformed-duration row. -/
def backendRowNeg : Int × Int → Except Unit (List RawEventRow) :=
  fun _ => Except.ok [rowNeg]

/-- Sample rows for the partial-failure scenario. -/
def rowA : RawEventRow :=
  { id := "a", score := some (95 / 100), camera := "court",
    startTime := some 1000, endTime := some 1300, hasClip := true }

/-- Second sample row, on another camera. -/
def rowB : RawEventRow :=
  { id := "b", score := some (80 / 100), camera := "pano",
    startTime := some 2000, endTime := some 2100, hasClip := false }

/-- Query backend for three windows where the middle window's query raises
a `sqlite3.Error` and the outer two succeed. -/
def bkThreeWindows : Int × Int → Except Unit (List RawEventRow) := fun w =>
  if w = ((0 : Int), (10 : Int)) then Except.ok [rowA]
  else if w = ((20 : Int), (30 : Int)) then Except.error ()
  else Except.ok [rowB]

/-- C7: with an enabled static config whose end time-of-day precedes its
start time-of-day, `get_night_range` on lookback 0 yields the window from
`start_time` on the target date to `end_time` on the next calendar day;
instantiated at start 20:00, end 06:00 and day 20270 (2025-07-01) this is
2025-07-01T20:00 to 2025-07-02T06:00. -/
theorem static_midnight_roll (sun : Int → Option (Int × Int)) (cfg : Config)
    (d st et : Int)
    (hcfg : cfg.staticTimes = some { enabled := true, startTime := some st, endTime := some et })
    (hroll : et < st) :
    getNightRange sun cfg d 0 =
      (Except.ok (d * 1440 + st, (d + 1) * 1440 + et), cfg) := by
  simp [getNightRange, calculateStaticTimes, hcfg, hroll]

/-- Witness for C7: the concrete 2025-07-01 scenario (day 20270; the window
instants are minutes since the epoch: 29190000 = 2025-07-01T20:00,
29190600 = 2025-07-02T06:00). -/
theorem static_midnight_roll_witness :
    getNightRange sunNone cfgStatic2006 20270 0 =
      (Except.ok ((29190000 : Int), (29190600 : Int)), cfgStatic2006) := by
  have h := static_midnight_roll sunNone cfgStatic2006 20270 1200 360 rfl
    (by decide)
  norm_num at h
  exact h

/-- C8: aggregating an empty event list yields zero total events, zero
cameras with detections, average confidence 0 (the guard `if events else
0.0` avoids the division by zero) and zero total duration. -/
theorem aggregate_empty_totals :
    aggregateTotals [] =
      { totalEvents := 0, camerasWithDetections := 0,
        averageConfidence := 0, totalDurationSeconds := 0 } := by
  rfl

/-- C1 counterexample: an enabled static configuration with equal start and
end times ("20:00"/"20:00") makes the resolver return a degenerate window
whose start equals its end (both 2025-07-01T20:00), refuting
`start < end`. -/
theorem night_window_degenerate :
    (getNightRange sunNone cfgStaticEqual 20270 0).1 =
      Except.ok ((29190000 : Int), (29190000 : Int)) ∧
    ¬ ((29190000 : Int) < (29190000 : Int)) := by
  constructor
  · rfl
  · decide

/-- C1 amended: a window produced by the static-times calculation satisfies
`start < end` provided the configured start and end times-of-day differ —
including the midnight-crossing case `end_time < start_time`; with equal
times the window degenerates to `start = end`. -/
theorem static_window_start_lt_end (cfg : Config) (d st et s e : Int)
    (sc : StaticTimesConfig) (hsc : cfg.staticTimes = some sc)
    (hen : sc.enabled = true) (hst : sc.startTime = some st)
    (het : sc.endTime = some et)
    (hst0 : 0 ≤ st) (hst1 : st < 1440) (het0 : 0 ≤ et) (het1 : et < 1440)
    (hne : st ≠ et)
    (hres : calculateStaticTimes cfg d = Except.ok (s, e)) :
    s < e := by
  simp [calculateStaticTimes, hsc, hen, hst, het] at hres
  by_cases hc : et < st
  · rw [if_pos hc] at hres
    obtain ⟨h1, h2⟩ := hres
    omega
  · rw [if_neg hc] at hres
    obtain ⟨h1, h2⟩ := hres
    omega

/-- Witness for C1's amended statement at the 20:00/06:00 configuration on
day 20270. -/
theorem static_window_start_lt_end_witness :
    (29190000 : Int) < (29190600 : Int) :=
  static_window_start_lt_end cfgStatic2006 20270 1200 360 29190000 29190600
    { enabled := true, startTime := some 1200, endTime := some 360 }
    rfl rfl rfl rfl (by decide) (by decide) (by decide) (by decide)
    (by decide) rfl

/-- C6: on the twilight path with configured coordinates, the resolver
returns exactly `dusk_raw − buffer` and `dawn_raw + buffer`; a nonnegative
buffer only widens the window, and buffer 0 reproduces the raw twilight
times. -/
theorem astral_buffer (sun : Int → Option (Int × Int)) (cfg : Config)
    (d du da : Int) (hloc : cfg.hasLocation = true)
    (hsun : sun d = some (du, da)) :
    calculateAstralTimes sun cfg d =
        Except.ok (du - cfg.bufferMinutes, da + cfg.bufferMinutes) ∧
      (0 ≤ cfg.bufferMinutes →
        du - cfg.bufferMinutes ≤ du ∧ da ≤ da + cfg.bufferMinutes) ∧
      (cfg.bufferMinutes = 0 → calculateAstralTimes sun cfg d = Except.ok (du, da)) := by
  refine ⟨?_, fun hb => ⟨by omega, by omega⟩, fun hb => ?_⟩
  · simp [calculateAstralTimes, hloc, hsun]
  · simp [calculateAstralTimes, hloc, hsun, hb]

/-- Witness for C6 at the sample oracle and config (buffer 15, day
20270). -/
theorem astral_buffer_witness :
    calculateAstralTimes sunDay cfgAstral 20270 =
        Except.ok ((20270 : Int) * 1440 + 1260 - 15, (20270 + 1) * 1440 + 300 + 15) ∧
      (20270 : Int) * 1440 + 1260 - 15 ≤ 20270 * 1440 + 1260 ∧
      ((20270 : Int) + 1) * 1440 + 300 ≤ (20270 + 1) * 1440 + 300 + 15 := by
  have h := astral_buffer sunDay cfgAstral 20270 (20270 * 1440 + 1260)
    ((20270 + 1) * 1440 + 300) rfl rfl
  exact ⟨h.1, h.2.1 (by decide)⟩

/-- C2 counterexample: with an always-locked backend and maxRetries 3 the
connect operation does make exactly 3 attempts and raise the lock error,
but it sleeps only twice — 1s then 2s; the claimed delay list 1s, 2s, 4s
never occurs because the final failing attempt raises without sleeping. -/
theorem retry_delays_refuted :
    attemptDatabaseConnection backendLocked 3 =
      (ConnectResult.lockError, 3, [1, 2]) ∧
    (attemptDatabaseConnection backendLocked 3).2.2 ≠ [1, 2, 4] := by
  constructor
  · rfl
  · decide

/-- C2 amended: with an always-locked backend and maxRetries 3 the connect
operation makes exactly 3 attempts, sleeping `2^attempt` seconds after each
failed non-final attempt (so delays 1s and 2s), and then raises
`DatabaseLockError`. -/
theorem always_locked_three_attempts (backend : Nat → ConnectOutcome)
    (hb : ∀ n, backend n = ConnectOutcome.locked) :
    attemptDatabaseConnection backend 3 =
      (ConnectResult.lockError, 3, [1, 2]) := by
  simp [attemptDatabaseConnection, connectLoop, hb]

/-- Witness for C2's amended statement at the concrete always-locked
backend. -/
theorem always_locked_three_attempts_witness :
    attemptDatabaseConnection backendLocked 3 =
      (ConnectResult.lockError, 3, [1, 2]) :=
  always_locked_three_attempts backendLocked (fun _ => rfl)

/-- C9 counterexample: a failure raised outside `sqlite3.OperationalError`
(the code's generic `except Exception` branch — e.g. a corrupt database
file raising `sqlite3.DatabaseError`) is non-transient, yet the connect
operation retries it: 3 attempts with two 1-second sleeps instead of the
claimed single attempt with no retry. -/
theorem nontransient_retried :
    attemptDatabaseConnection backendUnexpected 3 =
      (ConnectResult.dbError, 3, [1, 1]) ∧
    (attemptDatabaseConnection backendUnexpected 3).2.1 ≠ 1 := by
  constructor
  · rfl
  · decide

/-- C9 amended: a non-lock `sqlite3.OperationalError` (permission, unable
to open, ...) fails immediately with `DatabaseError` and no retry, and a
missing database file is rejected before any attempt; but an exception
outside `OperationalError` (e.g. corruption) falls into the generic
handler, which retries with 1-second pauses up to maxRetries before
raising `DatabaseError`. -/
theorem nontransient_classification :
    (∀ (backend : Nat → ConnectOutcome) (maxRetries : Nat),
      1 ≤ maxRetries → backend 0 = ConnectOutcome.opErrorOther →
      attemptDatabaseConnection backend maxRetries =
        (ConnectResult.dbError, 1, [])) ∧
    (∀ backend : Nat → ConnectOutcome,
      (∀ n, backend n = ConnectOutcome.unexpected) →
      attemptDatabaseConnection backend 3 =
        (ConnectResult.dbError, 3, [1, 1])) := by
  constructor
  · intro backend maxRetries hmr hb
    cases maxRetries with
    | zero => omega
    | succ r => simp [attemptDatabaseConnection, connectLoop, hb]
  · intro backend hb
    simp [attemptDatabaseConnection, connectLoop, hb]

/-- Witness for C9's amended statement: immediate failure for a non-lock
OperationalError backend, retried failure for a generic-exception
backend. -/
theorem nontransient_classification_witness :
    attemptDatabaseConnection backendOpOther 3 =
      (ConnectResult.dbError, 1, []) ∧
    attemptDatabaseConnection backendUnexpected 3 =
      (ConnectResult.dbError, 3, [1, 1]) :=
  ⟨nontransient_classification.1 backendOpOther 3 (by decide) rfl,
   nontransient_classification.2 backendUnexpected (fun _ => rfl)⟩

/-- C5 counterexample: a row whose end timestamp (50) precedes its start
timestamp (100) is turned into an event with `duration_seconds = -50`; the
SQL CASE has no `max(0, ·)` clamp, refuting the claimed invariant
`duration_seconds = max(0, end_time - start_time)`. -/
theorem duration_not_clamped :
    getFoxEvents backendRowNeg [0] [((0 : Int), (1000 : Int))] =
      Except.ok [{ eventId := "e1", confidence := 9 / 10, camera := "front",
                   durationSeconds := -50, clip := true, nightIndex := 0 }] ∧
    ((-50 : Rat) ≠ max 0 (-50 : Rat)) := by
  constructor
  · rfl
  · decide

/-- C5 amended: for every event constructed from a raw row,
`duration_seconds` equals `end_time − start_time` in seconds (possibly
negative — no clamping to 0) when both timestamps are present, and 0
otherwise. -/
theorem duration_formula (nightIdx : Int) (r : RawEventRow) :
    (∀ s e, r.startTime = some s → r.endTime = some e →
      (buildEvent nightIdx r).durationSeconds = ((e - s : Int) : Rat)) ∧
    ((r.startTime = none ∨ r.endTime = none) →
      (buildEvent nightIdx r).durationSeconds = 0) := by
  constructor
  · intro s e hs he
    simp [buildEvent, sqlDurationSeconds, hs, he]
  · intro h
    rcases h with h | h <;> simp [buildEvent, sqlDurationSeconds, h]

/-- Witness for C5's amended statement at the malformed row. -/
theorem duration_formula_witness :
    (buildEvent 0 rowNeg).durationSeconds = (((50 : Int) - 100 : Int) : Rat) :=
  (duration_formula 0 rowNeg).1 100 50 rfl rfl

/-- C4: in the enhanced fetcher, a window whose query raises contributes no
events but does not stop the loop: over three windows where the second
raises a `sqlite3.Error`, every event of windows 1 and 3 is returned, in
order. -/
theorem fetch_partial_failure
    (backend : Int × Int → Except Unit (List RawEventRow))
    (n1 n2 n3 : Int) (w1 w2 w3 : Int × Int) (r1 r3 : List RawEventRow)
    (h1 : backend w1 = Except.ok r1) (h2 : backend w2 = Except.error ())
    (h3 : backend w3 = Except.ok r3) :
    getFoxEventsEnhanced backend [n1, n2, n3] [w1, w2, w3] =
      Except.ok (r1.map (buildEnhancedEvent n1) ++
                 r3.map (buildEnhancedEvent n3)) := by
  simp [getFoxEventsEnhanced, getFoxEventsEnhancedAux, h1, h2, h3,
    nightIndexAt]

/-- Witness for C4 on a concrete three-window backend whose middle window
errors. -/
theorem fetch_partial_failure_witness :
    getFoxEventsEnhanced bkThreeWindows [1, 2, 3]
        [((0 : Int), (10 : Int)), ((20 : Int), (30 : Int)), ((40 : Int), (50 : Int))] =
      Except.ok ([rowA].map (buildEnhancedEvent 1) ++
                 [rowB].map (buildEnhancedEvent 3)) :=
  fetch_partial_failure bkThreeWindows 1 2 3 (0, 10) (20, 30) (40, 50)
    [rowA] [rowB] rfl rfl rfl

/-- C10: when the twilight computation fails and a static_times section is
present, the fallback permanently flips `static_times.enabled` to true in
the shared config; from then on every `get_night_range` call on that
resolver takes the static path — for any astral oracle, even one that
would succeed — and leaves the config unchanged. -/
theorem fallback_enables_static_permanently
    (sun : Int → Option (Int × Int)) (cfg : Config) (d lb : Int)
    (sc : StaticTimesConfig) (hsc : cfg.staticTimes = some sc)
    (hen : sc.enabled = false)
    (hfail : calculateAstralTimes sun cfg (d - lb) = Except.error ()) :
    (getNightRange sun cfg d lb).2.staticTimes =
        some { sc with enabled := true } ∧
    (∀ (sun2 : Int → Option (Int × Int)) (d2 lb2 : Int),
      getNightRange sun2 (getNightRange sun cfg d lb).2 d2 lb2 =
        (calculateStaticTimes (getNightRange sun cfg d lb).2 (d2 - lb2),
         (getNightRange sun cfg d lb).2)) := by
  have hstate : (getNightRange sun cfg d lb).2 = enableStatic cfg := by
    simp [getNightRange, hsc, hen, hfail]
  have hst' : (enableStatic cfg).staticTimes = some { sc with enabled := true } := by
    simp [enableStatic, hsc]
  refine ⟨by rw [hstate]; exact hst', ?_⟩
  intro sun2 d2 lb2
  rw [hstate]
  simp [getNightRange, hst']

/-- Witness for C10: the fallback configuration with a failing oracle, then
a later call with a succeeding oracle still resolved statically. -/
theorem fallback_enables_static_permanently_witness :
    (getNightRange sunNone cfgFallback 20270 0).2.staticTimes =
        some { enabled := true, startTime := some 1200, endTime := some 360 } ∧
    getNightRange sunDay (getNightRange sunNone cfgFallback 20270 0).2 20271 1 =
      (calculateStaticTimes (getNightRange sunNone cfgFallback 20270 0).2
         ((20271 : Int) - 1),
       (getNightRange sunNone cfgFallback 20270 0).2) := by
  have h := fallback_enables_static_permanently sunNone cfgFallback 20270 0
    { enabled := false, startTime := some 1200, endTime := some 360 }
    rfl rfl rfl
  exact ⟨h.1, h.2 sunDay 20271 1⟩

/-- Helper: the fallback mutation leaves the buffer untouched. -/
theorem enableStatic_bufferMinutes (cfg : Config) :
    (enableStatic cfg).bufferMinutes = cfg.bufferMinutes := by
  rcases hsc : cfg.staticTimes with _ | sc <;> simp [enableStatic, hsc]

/-- Helper: the fallback mutation does not touch the configured static
times, so their parsedness is preserved. -/
theorem staticTimesParsed_enableStatic (cfg : Config) :
    staticTimesParsed (enableStatic cfg) = staticTimesParsed cfg := by
  rcases hsc : cfg.staticTimes with _ | sc <;>
    simp [enableStatic, staticTimesParsed, hsc]

/-- Helper: a `get_night_range` call either leaves the configuration alone
or applies the fallback mutation. -/
theorem getNightRange_state (sun : Int → Option (Int × Int)) (cfg : Config)
    (d lb : Int) :
    (getNightRange sun cfg d lb).2 = cfg ∨
    (getNightRange sun cfg d lb).2 = enableStatic cfg := by
  rcases hsc : cfg.staticTimes with _ | sc
  · rcases hast : calculateAstralTimes sun cfg (d - lb) with e | r <;>
      simp [getNightRange, hsc, hast]
  · by_cases hen : sc.enabled = true
    · left; simp [getNightRange, hsc, hen]
    · rcases hast : calculateAstralTimes sun cfg (d - lb) with e | r
      · right; simp [getNightRange, hsc, hen, hast]
      · left; simp [getNightRange, hsc, hen, hast]

/-- Helper: the buffer survives any `get_night_range` call. -/
theorem getNightRange_buffer (sun : Int → Option (Int × Int)) (cfg : Config)
    (d lb : Int) :
    (getNightRange sun cfg d lb).2.bufferMinutes = cfg.bufferMinutes := by
  rcases getNightRange_state sun cfg d lb with h | h
  · rw [h]
  · rw [h, enableStatic_bufferMinutes]

/-- Helper: parsedness of the static times survives any `get_night_range`
call. -/
theorem getNightRange_parsed (sun : Int → Option (Int × Int)) (cfg : Config)
    (d lb : Int) (hp : staticTimesParsed cfg = true) :
    staticTimesParsed (getNightRange sun cfg d lb).2 = true := by
  rcases getNightRange_state sun cfg d lb with h | h
  · rw [h]; exact hp
  · rw [h, staticTimesParsed_enableStatic]; exact hp

/-- Helper: a static window's start lies inside the target day. -/
theorem static_start_in_day (cfg : Config) (t s e : Int)
    (hparsed : staticTimesParsed cfg = true)
    (h : calculateStaticTimes cfg t = Except.ok (s, e)) :
    t * 1440 ≤ s ∧ s < (t + 1) * 1440 := by
  rcases hsc : cfg.staticTimes with _ | sc
  · simp [calculateStaticTimes, hsc] at h
  · by_cases hen : sc.enabled = true
    · rcases hst : sc.startTime with _ | st
      · rcases het : sc.endTime with _ | et <;>
          simp [calculateStaticTimes, hsc, hen, hst, het] at h
      · rcases het : sc.endTime with _ | et
        · simp [calculateStaticTimes, hsc, hen, hst, het] at h
        · simp [calculateStaticTimes, hsc, hen, hst, het] at h
          simp [staticTimesParsed, hsc, hst, het] at hparsed
          obtain ⟨⟨h1, h2⟩, _⟩ := hparsed
          obtain ⟨hs, _⟩ := h
          omega
    · simp [calculateStaticTimes, hsc, hen] at h

/-- Helper: a buffered astral window's start lies inside the target day,
given the dusk-in-day property of the oracle. -/
theorem astral_start_in_day (sun : Int → Option (Int × Int)) (cfg : Config)
    (t s e : Int) (hsun : sunDuskInDay sun cfg.bufferMinutes)
    (h : calculateAstralTimes sun cfg t = Except.ok (s, e)) :
    t * 1440 ≤ s ∧ s < (t + 1) * 1440 := by
  by_cases hloc : cfg.hasLocation = false
  · simp [calculateAstralTimes, hloc] at h
  · rcases hs : sun t with _ | ⟨du, da⟩
    · simp [calculateAstralTimes, hloc, hs] at h
    · simp [calculateAstralTimes, hloc, hs] at h
      obtain ⟨h1, _⟩ := h
      have hb := hsun t du da hs
      omega

/-- Helper: any successful single-night resolution has its window start
inside the target day `d − lb`. -/
theorem getNightRange_start_in_day (sun : Int → Option (Int × Int))
    (cfg : Config) (d lb s e : Int) (cfg' : Config)
    (hsun : sunDuskInDay sun cfg.bufferMinutes)
    (hparsed : staticTimesParsed cfg = true)
    (h : getNightRange sun cfg d lb = (Except.ok (s, e), cfg')) :
    (d - lb) * 1440 ≤ s ∧ s < (d - lb + 1) * 1440 := by
  rcases hsc : cfg.staticTimes with _ | sc
  · rcases hast : calculateAstralTimes sun cfg (d - lb) with err | r
    · simp [getNightRange, hsc, hast] at h
    · simp [getNightRange, hsc, hast] at h
      obtain ⟨h1, _⟩ := h
      exact astral_start_in_day sun cfg (d - lb) s e hsun (h1 ▸ hast)
  · by_cases hen : sc.enabled = true
    · simp [getNightRange, hsc, hen] at h
      exact static_start_in_day cfg (d - lb) s e hparsed h.1
    · rcases hast : calculateAstralTimes sun cfg (d - lb) with err | r
      · simp [getNightRange, hsc, hen, hast] at h
        refine static_start_in_day (enableStatic cfg) (d - lb) s e ?_ h.1
        rw [staticTimesParsed_enableStatic]; exact hparsed
      · simp [getNightRange, hsc, hen, hast] at h
        obtain ⟨h1, _⟩ := h
        exact astral_start_in_day sun cfg (d - lb) s e hsun (h1 ▸ hast)

/-- Helper: soundness of the multi-night loop over an arbitrary strictly
increasing list of lookback indices — at most one window per index, each
window's start inside its target day, and the starts strictly
decreasing. -/
theorem getMultipleAux_sound (sun : Int → Option (Int × Int)) (d b : Int) :
    ∀ (lbs : List Nat) (cfg : Config),
      cfg.bufferMinutes = b → sunDuskInDay sun b →
      staticTimesParsed cfg = true → List.Pairwise (· < ·) lbs →
      (getMultipleAux sun d cfg lbs).1.length ≤ lbs.length ∧
      (∀ w ∈ (getMultipleAux sun d cfg lbs).1, ∃ lb ∈ lbs,
        (d - (lb : Int)) * 1440 ≤ w.1 ∧ w.1 < (d - (lb : Int) + 1) * 1440) ∧
      List.Pairwise (fun a c : Int × Int => c.1 < a.1)
        (getMultipleAux sun d cfg lbs).1 := by
  intro lbs
  induction lbs with
  | nil => intro cfg _ _ _ _; simp [getMultipleAux]
  | cons lb rest ih =>
    intro cfg hb hsun hparsed hpw
    rw [List.pairwise_cons] at hpw
    obtain ⟨hlt, hpwrest⟩ := hpw
    rcases hstep : getNightRange sun cfg d (lb : Int) with ⟨res, cfg2⟩
    have hcfg2 : (getNightRange sun cfg d (lb : Int)).2 = cfg2 := by
      rw [hstep]
    have hbuf2 : cfg2.bufferMinutes = b := by
      rw [← hcfg2, getNightRange_buffer]; exact hb
    have hparsed2 : staticTimesParsed cfg2 = true := by
      rw [← hcfg2]; exact getNightRange_parsed sun cfg d (lb : Int) hparsed
    have htail := ih cfg2 hbuf2 hsun hparsed2 hpwrest
    rcases res with err | r
    · simp only [getMultipleAux, hstep]
      refine ⟨le_trans htail.1 (by simp), ?_, htail.2.2⟩
      intro w hw
      obtain ⟨lb', hlb', hbnd⟩ := htail.2.1 w hw
      exact ⟨lb', List.mem_cons_of_mem lb hlb', hbnd⟩
    · rcases r with ⟨s, e⟩
      have hhead := getNightRange_start_in_day sun cfg d (lb : Int) s e cfg2
        (hb ▸ hsun) hparsed hstep
      simp only [getMultipleAux, hstep]
      refine ⟨by simpa using Nat.succ_le_succ htail.1, ?_, ?_⟩
      · intro w hw
        rcases List.mem_cons.mp hw with hw | hw
        · exact ⟨lb, List.mem_cons_self lb rest, by rw [hw]; exact hhead⟩
        · obtain ⟨lb', hlb', hbnd⟩ := htail.2.1 w hw
          exact ⟨lb', List.mem_cons_of_mem lb hlb', hbnd⟩
      · rw [List.pairwise_cons]
        refine ⟨?_, htail.2.2⟩
        intro w hw
        obtain ⟨lb', hlb', hbnd⟩ := htail.2.1 w hw
        have hlb : lb < lb' := hlt lb' hlb'
        have : ((lb : Int)) < ((lb' : Int)) := by exact_mod_cast hlb
        obtain ⟨hh1, hh2⟩ := hhead
        obtain ⟨hb1, hb2⟩ := hbnd
        omega

/-- C3: for every reference date and count, `get_multiple_night_ranges`
returns at most `count` windows whose starts strictly decrease as lookback
increases; a failing lookback index is skipped (its window omitted) without
aborting the loop.  The hypotheses state that the configured static
times-of-day are parsed "HH:MM" values and that the astral oracle places
each buffered dusk inside its own day, which is how the astral library
behaves at non-polar latitudes. -/
theorem resolve_multiple_monotone (sun : Int → Option (Int × Int))
    (cfg : Config) (d : Int) (n : Nat)
    (hsun : sunDuskInDay sun cfg.bufferMinutes)
    (hparsed : staticTimesParsed cfg = true) :
    (getMultipleNightRanges sun cfg d n).length ≤ n ∧
    List.Pairwise (fun a c : Int × Int => c.1 < a.1)
      (getMultipleNightRanges sun cfg d n) := by
  have h := getMultipleAux_sound sun d cfg.bufferMinutes (List.range n) cfg
    rfl hsun hparsed (List.pairwise_lt_range n)
  constructor
  · simpa [getMultipleNightRanges] using h.1
  · simpa [getMultipleNightRanges] using h.2.2

/-- Witness for C3 at a concrete astral-only configuration and oracle. -/
theorem resolve_multiple_monotone_witness :
    (getMultipleNightRanges sunDay cfgAstral 20270 3).length ≤ 3 ∧
    List.Pairwise (fun a c : Int × Int => c.1 < a.1)
      (getMultipleNightRanges sunDay cfgAstral 20270 3) :=
  resolve_multiple_monotone sunDay cfgAstral 20270 3
    (by
      intro t du da h
      simp [sunDay] at h
      obtain ⟨h1, h2⟩ := h
      simp [cfgAstral]
      omega)
    (by decide)

end FoxReport
